import Mathlib

/-!
Verification of the AgentCom example WebSocket operator agent
(`examples/ws_operator.py`) against its natural-language specification.

The embedding follows the source file:

* a `Signal` is a JSON object carrying an optional `"values"` entry — a
  mapping from responder names to numeric weights (machine floats are
  modelled as rationals) — together with its remaining top-level fields;
* `transform_signal` mirrors the Python function line by line: it reads
  `values` with default `{}`, performs the five clamped updates in source
  order, and stores the mapping back into the signal;
* `on_message` mirrors the message callback: JSON decoding failures and
  missing-key accesses (`msg["type"]`, `msg["signal"]`, `msg["request_id"]`,
  `msg["agent_id"]`) are modelled as `Except` errors, since the Python code
  has no exception handling of its own;
* `on_open_messages` mirrors the registration performed on connection open.
-/

namespace AgentCom

/-- A JSON value, used for the top-level fields of a signal other than
`"values"` (the Python code never inspects those fields). -/
inductive Json where
  | null
  | jbool (b : Bool)
  | jnum (q : ℚ)
  | jstr (s : String)
  | jarr (items : List Json)
  | jobj (fields : List (String × Json))

/-- The `values` mapping of a signal: responder name to numeric weight.
Python dict semantics are modelled as an association list with
first-match lookup and replace-first-or-append update. -/
abbrev ValMap := List (String × ℚ)

/-- `values.get(name, d)` minus the default: first-match lookup. -/
def vlookup : ValMap → String → Option ℚ
  | [], _ => none
  | (k, v) :: rest, key => if k = key then some v else vlookup rest key

/-- `values.get(name, 0)` — lookup with default `0`. -/
def getD (vs : ValMap) (key : String) : ℚ :=
  (vlookup vs key).getD 0

/-- `values[name] = v` — Python dict assignment: overwrite the entry if the
key is present, otherwise append a new entry (insertion order). -/
def setV : ValMap → String → ℚ → ValMap
  | [], key, v => [(key, v)]
  | (k, w) :: rest, key, v =>
      if k = key then (key, v) :: rest else (k, w) :: setV rest key v

/-- The Python builtin `min` on two numbers. -/
def pymin (a b : ℚ) : ℚ := if a ≤ b then a else b

/-- The Python builtin `max` on two numbers. -/
def pymax (a b : ℚ) : ℚ := if a ≤ b then b else a

/-- A signal: the optional `"values"` entry plus all other top-level
fields of the signal object (which `transform_signal` never touches). -/
structure Signal where
  values : Option ValMap
  extra : List (String × Json)

/-- The five sequential clamped updates of `transform_signal`, applied to
the `values` mapping (lines 29-35 of `ws_operator.py`). -/
def step (values : ValMap) : ValMap :=
  let values := setV values "storm_bringer" (pymin 1 (getD values "storm_bringer" + 35/100))
  let values := setV values "void_singer" (pymin 1 (getD values "void_singer" + 15/100))
  let values := setV values "spark_lord" (pymin 1 (getD values "spark_lord" + 10/100))
  let values := setV values "quiet_tide" (pymax (-1) (getD values "quiet_tide" - 20/100))
  let values := setV values "silk_shadow" (pymax (-1) (getD values "silk_shadow" - 10/100))
  values

/-- `transform_signal` (lines 24-38 of `ws_operator.py`): read `values`
with default `{}`, apply the five clamped updates, store the mapping back.
All other fields of the signal pass through unchanged. -/
def transform_signal (signal : Signal) : Signal :=
  let values := signal.values.getD []
  let values := setV values "storm_bringer" (pymin 1 (getD values "storm_bringer" + 35/100))
  let values := setV values "void_singer" (pymin 1 (getD values "void_singer" + 15/100))
  let values := setV values "spark_lord" (pymin 1 (getD values "spark_lord" + 10/100))
  let values := setV values "quiet_tide" (pymax (-1) (getD values "quiet_tide" - 20/100))
  let values := setV values "silk_shadow" (pymax (-1) (getD values "silk_shadow" - 10/100))
  { values := some values, extra := signal.extra }

/-- The five responder names `transform_signal` adjusts. -/
def adjustedKeys : List String :=
  ["storm_bringer", "void_singer", "spark_lord", "quiet_tide", "silk_shadow"]

/-! ### The message layer

`on_message` (lines 41-61 of `ws_operator.py`) decodes a frame with
`json.loads`, reads `msg["type"]`, and dispatches.  The Python code performs
no exception handling, so every failing operation — `json.loads` on invalid
text, subscripting a non-dict, or a missing key — is modelled as an
`Except.error` that propagates out of the handler, exactly as the
corresponding Python exception (`json.JSONDecodeError`, `TypeError`,
`KeyError`) escapes the callback. -/

/-- A failure inside the message handler. -/
inductive DecodeError where
  | badJson
  | notDict
  | keyError (field : String)

/-- An outbound message: the registration sent on open, or a transform
result sent from the handler. -/
inductive OutMsg where
  | register (agent_id : String) (capabilities : List String)
  | transform_result (request_id : String) (signal : Signal)

/-- The fields of a decoded inbound message object that the handler reads.
`mtype` models `msg["type"]` (a string discriminator), `request_id` and
`agent_id` the homonymous string fields, `signal` the embedded signal;
`none` models an absent key, for which the subscript raises `KeyError`. -/
structure MsgFields where
  mtype : Option String
  request_id : Option String
  agent_id : Option String
  signal : Option Signal

/-- An inbound frame: text that is not valid JSON, valid JSON that is not an
object (so that `msg["type"]` raises `TypeError`), or a decoded object. -/
inductive Frame where
  | notJson
  | nonObject
  | object (m : MsgFields)

/-- `AGENT_ID` from line 21 of `ws_operator.py`. -/
def AGENT_ID : String := "storm_amplifier"

/-- The `on_message` callback: dispatch on `msg["type"]`.  A `transform`
message has its signal transformed and answered with a `transform_result`
echoing `msg["request_id"]`; `registered` logs `msg["agent_id"]`; `pong` and
any unknown discriminator do nothing.  The returned value is the outbound
message sent with `ws.send`, if any. -/
def on_message : Frame → Except DecodeError (Option OutMsg)
  | .notJson => .error .badJson
  | .nonObject => .error .notDict
  | .object m =>
    match m.mtype with
    | none => .error (.keyError "type")
    | some t =>
      if t = "transform" then
        match m.signal with
        | none => .error (.keyError "signal")
        | some sig =>
          let signal := transform_signal sig
          match m.request_id with
          | none => .error (.keyError "request_id")
          | some rid => .ok (some (.transform_result rid signal))
      else if t = "registered" then
        match m.agent_id with
        | none => .error (.keyError "agent_id")
        | some _ => .ok none
      else if t = "pong" then
        .ok none
      else
        .ok none

/-- The `on_open` callback (lines 72-82): the messages it sends — exactly one
`register` message declaring `AGENT_ID` and the capability list. -/
def on_open_messages : List OutMsg :=
  [.register AGENT_ID ["transform"]]

/-! ### Basic lemmas about the dict operations -/

theorem pymin_eq_min (a b : ℚ) : pymin a b = min a b := by
  rw [pymin, min_def]

theorem pymax_eq_max (a b : ℚ) : pymax a b = max a b := by
  rw [pymax, max_def]

@[simp] theorem vlookup_setV_self (v : ValMap) (k : String) (x : ℚ) :
    vlookup (setV v k x) k = some x := by
  induction v with
  | nil => simp [setV, vlookup]
  | cons p rest ih =>
      obtain ⟨k', w⟩ := p
      by_cases h : k' = k
      · simp [setV, h, vlookup]
      · simp [setV, h, vlookup, ih]

@[simp] theorem vlookup_setV_ne (v : ValMap) (k k' : String) (x : ℚ) (h : k ≠ k') :
    vlookup (setV v k x) k' = vlookup v k' := by
  induction v with
  | nil => simp [setV, vlookup, h]
  | cons p rest ih =>
      obtain ⟨k'', w⟩ := p
      by_cases h2 : k'' = k
      · subst h2
        simp [setV, vlookup, h]
      · simp [setV, h2, vlookup, ih]

@[simp] theorem getD_setV_self (v : ValMap) (k : String) (x : ℚ) :
    getD (setV v k x) k = x := by
  simp [getD]

@[simp] theorem getD_setV_ne (v : ValMap) (k k' : String) (x : ℚ) (h : k ≠ k') :
    getD (setV v k x) k' = getD v k' := by
  simp [getD, vlookup_setV_ne v k k' x h]

theorem setV_self (v : ValMap) (k : String) (x : ℚ) (h : vlookup v k = some x) :
    setV v k x = v := by
  induction v with
  | nil => simp [vlookup] at h
  | cons p rest ih =>
      obtain ⟨k', w⟩ := p
      by_cases h2 : k' = k
      · subst h2
        simp [vlookup] at h
        simp [setV, h]
      · simp [vlookup, h2] at h
        simp [setV, h2, ih h]

theorem isSome_vlookup_setV (v : ValMap) (k k' : String) (x : ℚ) :
    (vlookup (setV v k x) k').isSome ↔ (vlookup v k').isSome ∨ k' = k := by
  by_cases h : k = k'
  · subst h
    simp
  · simp [vlookup_setV_ne v k k' x h, Ne.symm h]

/-! ### The effect of the five updates on each key -/

theorem transform_signal_eq_step (s : Signal) :
    transform_signal s = ⟨some (step (s.values.getD [])), s.extra⟩ := rfl

theorem step_lookup_storm (v : ValMap) :
    vlookup (step v) "storm_bringer" = some (pymin 1 (getD v "storm_bringer" + 35/100)) := by
  simp [step]

theorem step_lookup_void (v : ValMap) :
    vlookup (step v) "void_singer" = some (pymin 1 (getD v "void_singer" + 15/100)) := by
  simp [step]

theorem step_lookup_spark (v : ValMap) :
    vlookup (step v) "spark_lord" = some (pymin 1 (getD v "spark_lord" + 10/100)) := by
  simp [step]

theorem step_lookup_quiet (v : ValMap) :
    vlookup (step v) "quiet_tide" = some (pymax (-1) (getD v "quiet_tide" - 20/100)) := by
  simp [step]

theorem step_lookup_silk (v : ValMap) :
    vlookup (step v) "silk_shadow" = some (pymax (-1) (getD v "silk_shadow" - 10/100)) := by
  simp [step]

theorem step_lookup_other (v : ValMap) (k : String) (h : k ∉ adjustedKeys) :
    vlookup (step v) k = vlookup v k := by
  simp [adjustedKeys] at h
  obtain ⟨h1, h2, h3, h4, h5⟩ := h
  simp [step, vlookup_setV_ne _ _ _ _ (Ne.symm h1), vlookup_setV_ne _ _ _ _ (Ne.symm h2),
    vlookup_setV_ne _ _ _ _ (Ne.symm h3), vlookup_setV_ne _ _ _ _ (Ne.symm h4),
    vlookup_setV_ne _ _ _ _ (Ne.symm h5)]

theorem isSome_step_lookup (v : ValMap) (k : String) :
    (vlookup (step v) k).isSome ↔ (vlookup v k).isSome ∨ k ∈ adjustedKeys := by
  by_cases h : k ∈ adjustedKeys
  · constructor
    · intro _
      exact Or.inr h
    · intro _
      fin_cases h <;>
        simp [step_lookup_storm, step_lookup_void, step_lookup_spark, step_lookup_quiet,
          step_lookup_silk]
  · rw [step_lookup_other v k h]
    simp [h]

/-! ### Iterating the transform: clamp-collapse, saturation, fixed point -/

theorem pymin_collapse (x δ : ℚ) (hδ : 0 ≤ δ) :
    pymin 1 (pymin 1 x + δ) = pymin 1 (x + δ) := by
  rw [pymin_eq_min, pymin_eq_min, pymin_eq_min]
  rcases le_total x 1 with h | h
  · rw [min_eq_right h]
  · rw [min_eq_left h, min_eq_left (by linarith), min_eq_left (by linarith)]

theorem pymax_collapse (x δ : ℚ) (hδ : 0 ≤ δ) :
    pymax (-1) (pymax (-1) x - δ) = pymax (-1) (x - δ) := by
  rw [pymax_eq_max, pymax_eq_max, pymax_eq_max]
  rcases le_total (-1 : ℚ) x with h | h
  · rw [max_eq_right h]
  · rw [max_eq_left h, max_eq_left (by linarith), max_eq_left (by linarith)]

theorem iter_lookup_amp (key : String) (δ : ℚ) (hδ : 0 ≤ δ)
    (hkey : ∀ v : ValMap, vlookup (step v) key = some (pymin 1 (getD v key + δ))) :
    ∀ (v : ValMap) (n : ℕ),
      vlookup (step^[n+1] v) key = some (pymin 1 (getD v key + (↑(n+1) : ℚ) * δ)) := by
  intro v n
  induction n with
  | zero =>
      simpa using hkey v
  | succ m ih =>
      rw [Function.iterate_succ_apply', hkey, getD, ih]
      simp only [Option.getD_some]
      rw [pymin_collapse _ δ hδ]
      push_cast
      ring_nf

theorem iter_lookup_damp (key : String) (δ : ℚ) (hδ : 0 ≤ δ)
    (hkey : ∀ v : ValMap, vlookup (step v) key = some (pymax (-1) (getD v key - δ))) :
    ∀ (v : ValMap) (n : ℕ),
      vlookup (step^[n+1] v) key = some (pymax (-1) (getD v key - (↑(n+1) : ℚ) * δ)) := by
  intro v n
  induction n with
  | zero =>
      simpa using hkey v
  | succ m ih =>
      rw [Function.iterate_succ_apply', hkey, getD, ih]
      simp only [Option.getD_some]
      rw [pymax_collapse _ δ hδ]
      push_cast
      ring_nf

theorem amp_saturates (x δ : ℚ) (hδ : 0 < δ) :
    ∃ N : ℕ, ∀ n : ℕ, N ≤ n → pymin 1 (x + (n : ℚ) * δ) = 1 := by
  obtain ⟨N, hN⟩ := exists_nat_ge ((1 - x) / δ)
  refine ⟨N, fun n hn => ?_⟩
  have hc : ((N : ℚ)) ≤ (n : ℚ) := by exact_mod_cast hn
  have hd : (1 - x) / δ ≤ (n : ℚ) := le_trans hN hc
  have h1 : 1 - x ≤ (n : ℚ) * δ := by
    rw [div_le_iff₀ hδ] at hd
    linarith
  rw [pymin_eq_min, min_eq_left (by linarith)]

theorem damp_saturates (x δ : ℚ) (hδ : 0 < δ) :
    ∃ N : ℕ, ∀ n : ℕ, N ≤ n → pymax (-1) (x - (n : ℚ) * δ) = -1 := by
  obtain ⟨N, hN⟩ := exists_nat_ge ((x + 1) / δ)
  refine ⟨N, fun n hn => ?_⟩
  have hc : ((N : ℚ)) ≤ (n : ℚ) := by exact_mod_cast hn
  have hd : (x + 1) / δ ≤ (n : ℚ) := le_trans hN hc
  have h1 : x + 1 ≤ (n : ℚ) * δ := by
    rw [div_le_iff₀ hδ] at hd
    linarith
  rw [pymax_eq_max, max_eq_left (by linarith)]

theorem step_fixed (v : ValMap)
    (h1 : vlookup v "storm_bringer" = some 1)
    (h2 : vlookup v "void_singer" = some 1)
    (h3 : vlookup v "spark_lord" = some 1)
    (h4 : vlookup v "quiet_tide" = some (-1))
    (h5 : vlookup v "silk_shadow" = some (-1)) :
    step v = v := by
  have e1 : setV v "storm_bringer" (pymin 1 (getD v "storm_bringer" + 35/100)) = v := by
    rw [getD, h1]
    simp only [Option.getD_some]
    rw [show pymin 1 ((1:ℚ) + 35/100) = 1 by norm_num [pymin]]
    exact setV_self v _ 1 h1
  have e2 : setV v "void_singer" (pymin 1 (getD v "void_singer" + 15/100)) = v := by
    rw [getD, h2]
    simp only [Option.getD_some]
    rw [show pymin 1 ((1:ℚ) + 15/100) = 1 by norm_num [pymin]]
    exact setV_self v _ 1 h2
  have e3 : setV v "spark_lord" (pymin 1 (getD v "spark_lord" + 10/100)) = v := by
    rw [getD, h3]
    simp only [Option.getD_some]
    rw [show pymin 1 ((1:ℚ) + 10/100) = 1 by norm_num [pymin]]
    exact setV_self v _ 1 h3
  have e4 : setV v "quiet_tide" (pymax (-1) (getD v "quiet_tide" - 20/100)) = v := by
    rw [getD, h4]
    simp only [Option.getD_some]
    rw [show pymax (-1) ((-1:ℚ) - 20/100) = -1 by norm_num [pymax]]
    exact setV_self v _ (-1) h4
  have e5 : setV v "silk_shadow" (pymax (-1) (getD v "silk_shadow" - 10/100)) = v := by
    rw [getD, h5]
    simp only [Option.getD_some]
    rw [show pymax (-1) ((-1:ℚ) - 10/100) = -1 by norm_num [pymax]]
    exact setV_self v _ (-1) h5
  show step v = v
  simp only [step]
  rw [e1, e2, e3, e4, e5]

theorem transform_iterate (s : Signal) (n : ℕ) :
    transform_signal^[n+1] s = ⟨some (step^[n+1] (s.values.getD [])), s.extra⟩ := by
  induction n with
  | zero => simpa using transform_signal_eq_step s
  | succ m ih =>
      rw [Function.iterate_succ_apply', ih, transform_signal_eq_step]
      simp only [Option.getD_some]
      rw [← Function.iterate_succ_apply' step (m+1) (s.values.getD [])]

/-! ### Claim theorems -/

/-- Claim C1: for every input signal, `transform_signal` sets each of the three
amplification keys `storm_bringer`, `void_singer`, `spark_lord` to
`min 1 (old + 0.35 / 0.15 / 0.10)` and each of the two dampening keys
`quiet_tide`, `silk_shadow` to `max (-1) (old - 0.20 / 0.10)`, treating an
absent key as `0`; on the empty values mapping the result is exactly the
mapping of Scenario 1, and `storm_bringer = 0.9` is clamped to `1`. -/
theorem transform_signal_clamped_updates :
    (∀ s : Signal,
      vlookup ((transform_signal s).values.getD []) "storm_bringer"
        = some (min 1 (getD (s.values.getD []) "storm_bringer" + 0.35)) ∧
      vlookup ((transform_signal s).values.getD []) "void_singer"
        = some (min 1 (getD (s.values.getD []) "void_singer" + 0.15)) ∧
      vlookup ((transform_signal s).values.getD []) "spark_lord"
        = some (min 1 (getD (s.values.getD []) "spark_lord" + 0.10)) ∧
      vlookup ((transform_signal s).values.getD []) "quiet_tide"
        = some (max (-1) (getD (s.values.getD []) "quiet_tide" - 0.20)) ∧
      vlookup ((transform_signal s).values.getD []) "silk_shadow"
        = some (max (-1) (getD (s.values.getD []) "silk_shadow" - 0.10))) ∧
    transform_signal ⟨some [], []⟩ =
      ⟨some [("storm_bringer", 0.35), ("void_singer", 0.15), ("spark_lord", 0.10),
             ("quiet_tide", -0.20), ("silk_shadow", -0.10)], []⟩ ∧
    vlookup ((transform_signal ⟨some [("storm_bringer", 0.9)], []⟩).values.getD [])
        "storm_bringer" = some 1 := by
  refine ⟨fun s => ?_, ?_, ?_⟩
  · rw [transform_signal_eq_step]
    simp only [Option.getD_some]
    rw [step_lookup_storm, step_lookup_void, step_lookup_spark, step_lookup_quiet,
      step_lookup_silk, pymin_eq_min, pymin_eq_min, pymin_eq_min, pymax_eq_max, pymax_eq_max]
    norm_num
  · simp [transform_signal, setV, vlookup, getD, pymin, pymax]
    norm_num
  · simp [transform_signal, setV, vlookup, getD, pymin, pymax]
    norm_num

/-- Claim C3: for every input signal and every key outside the five adjusted
names, `transform_signal` leaves that key's entry in the values mapping
unchanged — present keys keep their value and absent keys stay absent. -/
theorem transform_signal_frame_other_keys :
    ∀ (s : Signal) (k : String), k ∉ adjustedKeys →
      vlookup ((transform_signal s).values.getD []) k = vlookup (s.values.getD []) k := by
  intro s k h
  rw [transform_signal_eq_step]
  simp only [Option.getD_some]
  exact step_lookup_other _ k h

/-- Witness for C3 at a concrete signal and the concrete key `echo_wind`:
the untouched key keeps its value `1/2`. -/
theorem transform_signal_frame_other_keys_witness :
    ("echo_wind" : String) ∉ adjustedKeys ∧
    vlookup ((transform_signal ⟨some [("echo_wind", 1/2)], []⟩).values.getD []) "echo_wind"
      = vlookup ((⟨some [("echo_wind", 1/2)], []⟩ : Signal).values.getD []) "echo_wind" :=
  ⟨by decide, transform_signal_frame_other_keys ⟨some [("echo_wind", 1/2)], []⟩ "echo_wind"
    (by decide)⟩

/-- Claim C9: the output values mapping always exists, and its key set is the
input key set united with the five adjusted names; in particular all five
names are present in the output. -/
theorem transform_signal_output_key_set :
    ∀ s : Signal,
      (transform_signal s).values.isSome ∧
      ∀ k : String,
        (vlookup ((transform_signal s).values.getD []) k).isSome ↔
          (vlookup (s.values.getD []) k).isSome ∨ k ∈ adjustedKeys := by
  intro s
  rw [transform_signal_eq_step]
  refine ⟨rfl, fun k => ?_⟩
  simp only [Option.getD_some]
  exact isSome_step_lookup _ k

/-- Counterexample to C4: on the input signal whose `storm_bringer` weight is
`-2`, `transform_signal` writes `-1.65` for `storm_bringer`, which lies
outside the declared range `[-1, 1]` — `min 1` only clamps from above. -/
theorem transform_signal_range_counterexample :
    getD ((transform_signal ⟨some [("storm_bringer", -2)], []⟩).values.getD [])
      "storm_bringer" < -1 := by
  simp [transform_signal, setV, vlookup, getD, pymin, pymax]
  norm_num

/-- Claim C4 as amended: the clamps are one-sided. Every amplified key's
output is at most `1`, every dampened key's output is at least `-1`, and when
the unclamped sum already respects that bound the output equals the exact
sum; an input already outside the range on the unclamped side passes through
shifted, not clamped. -/
theorem transform_signal_one_sided_clamps :
    ∀ s : Signal,
      getD ((transform_signal s).values.getD []) "storm_bringer" ≤ 1 ∧
      getD ((transform_signal s).values.getD []) "void_singer" ≤ 1 ∧
      getD ((transform_signal s).values.getD []) "spark_lord" ≤ 1 ∧
      -1 ≤ getD ((transform_signal s).values.getD []) "quiet_tide" ∧
      -1 ≤ getD ((transform_signal s).values.getD []) "silk_shadow" ∧
      (getD (s.values.getD []) "storm_bringer" + 35/100 ≤ 1 →
        getD ((transform_signal s).values.getD []) "storm_bringer"
          = getD (s.values.getD []) "storm_bringer" + 35/100) ∧
      (getD (s.values.getD []) "void_singer" + 15/100 ≤ 1 →
        getD ((transform_signal s).values.getD []) "void_singer"
          = getD (s.values.getD []) "void_singer" + 15/100) ∧
      (getD (s.values.getD []) "spark_lord" + 10/100 ≤ 1 →
        getD ((transform_signal s).values.getD []) "spark_lord"
          = getD (s.values.getD []) "spark_lord" + 10/100) ∧
      (-1 ≤ getD (s.values.getD []) "quiet_tide" - 20/100 →
        getD ((transform_signal s).values.getD []) "quiet_tide"
          = getD (s.values.getD []) "quiet_tide" - 20/100) ∧
      (-1 ≤ getD (s.values.getD []) "silk_shadow" - 10/100 →
        getD ((transform_signal s).values.getD []) "silk_shadow"
          = getD (s.values.getD []) "silk_shadow" - 10/100) := by
  intro s
  rw [transform_signal_eq_step]
  simp only [Option.getD_some, getD, step_lookup_storm, step_lookup_void, step_lookup_spark,
    step_lookup_quiet, step_lookup_silk, pymin_eq_min, pymax_eq_max]
  exact ⟨min_le_left _ _, min_le_left _ _, min_le_left _ _, le_max_left _ _, le_max_left _ _,
    fun h => min_eq_right h, fun h => min_eq_right h, fun h => min_eq_right h,
    fun h => max_eq_right h, fun h => max_eq_right h⟩

/-- Witness for the amended C4 at the empty signal: the bound holds and, since
`0 + 0.35 ≤ 1`, the amplified output is exactly `0 + 0.35`. -/
theorem transform_signal_one_sided_clamps_witness :
    getD ((transform_signal ⟨some [], []⟩).values.getD []) "storm_bringer" ≤ 1 ∧
    -1 ≤ getD ((transform_signal ⟨some [], []⟩).values.getD []) "quiet_tide" ∧
    getD ((transform_signal ⟨some [], []⟩).values.getD []) "storm_bringer"
      = getD ((⟨some [], []⟩ : Signal).values.getD []) "storm_bringer" + 35/100 := by
  obtain ⟨h1, h2, h3, h4, h5, h6, _⟩ := transform_signal_one_sided_clamps ⟨some [], []⟩
  exact ⟨h1, h4, h6 (by norm_num [getD, vlookup])⟩

/-- Claim C6: `transform_signal` is total by construction (it is a Lean
function on every `Signal`, mirroring that the Python function performs no
failing operation on a well-formed signal); it is not idempotent — a second
application moves `storm_bringer` again on the empty signal — and iterating
it converges: for every signal there is an `n` after which one further
application changes nothing, all adjusted keys being saturated at their
clamp bounds. -/
theorem transform_signal_not_idempotent_but_convergent :
    (transform_signal (transform_signal ⟨some [], []⟩) ≠ transform_signal ⟨some [], []⟩) ∧
    ∀ s : Signal, ∃ n : ℕ, transform_signal^[n+1] s = transform_signal^[n] s := by
  constructor
  · intro h
    have h2 := congrArg (fun t => vlookup (t.values.getD []) "storm_bringer") h
    simp [transform_signal, setV, vlookup, getD, pymin, pymax] at h2
    norm_num at h2
  · intro s
    obtain ⟨N1, hN1⟩ := amp_saturates (getD (s.values.getD []) "storm_bringer") (35/100)
      (by norm_num)
    obtain ⟨N2, hN2⟩ := amp_saturates (getD (s.values.getD []) "void_singer") (15/100)
      (by norm_num)
    obtain ⟨N3, hN3⟩ := amp_saturates (getD (s.values.getD []) "spark_lord") (10/100)
      (by norm_num)
    obtain ⟨N4, hN4⟩ := damp_saturates (getD (s.values.getD []) "quiet_tide") (20/100)
      (by norm_num)
    obtain ⟨N5, hN5⟩ := damp_saturates (getD (s.values.getD []) "silk_shadow") (10/100)
      (by norm_num)
    refine ⟨max N1 (max N2 (max N3 (max N4 N5))) + 1, ?_⟩
    set M := max N1 (max N2 (max N3 (max N4 N5))) with hM
    set w := s.values.getD [] with hw
    rw [transform_iterate s (M + 1), transform_iterate s M]
    have hstep : step (step^[M+1] w) = step^[M+1] w := by
      apply step_fixed
      · rw [iter_lookup_amp "storm_bringer" (35/100) (by norm_num) step_lookup_storm w M]
        rw [hN1 (M+1) (by omega)]
      · rw [iter_lookup_amp "void_singer" (15/100) (by norm_num) step_lookup_void w M]
        rw [hN2 (M+1) (by omega)]
      · rw [iter_lookup_amp "spark_lord" (10/100) (by norm_num) step_lookup_spark w M]
        rw [hN3 (M+1) (by omega)]
      · rw [iter_lookup_damp "quiet_tide" (20/100) (by norm_num) step_lookup_quiet w M]
        rw [hN4 (M+1) (by omega)]
      · rw [iter_lookup_damp "silk_shadow" (10/100) (by norm_num) step_lookup_silk w M]
        rw [hN5 (M+1) (by omega)]
    rw [show M + 1 + 1 = (M + 1) + 1 by rfl, Function.iterate_succ_apply' step (M+1) w, hstep]

/-- Claim C2: for every inbound `transform` message, the outbound
`transform_result` carries exactly the `request_id` of the triggering
message, unchanged, together with the transformed signal. -/
theorem transform_result_echoes_request_id :
    ∀ (m : MsgFields) (sig : Signal) (rid : String),
      m.mtype = some "transform" → m.signal = some sig → m.request_id = some rid →
      on_message (.object m) =
        .ok (some (.transform_result rid (transform_signal sig))) := by
  intro m sig rid ht hs hr
  rcases m with ⟨t, r, a, g⟩
  simp only at ht hs hr
  subst ht
  subst hs
  subst hr
  simp [on_message]

/-- Witness for C2: a concrete `transform` message with `request_id` `r1`
produces a `transform_result` echoing `r1`. -/
theorem transform_result_echoes_request_id_witness :
    on_message (.object ⟨some "transform", some "r1", none, some ⟨some [], []⟩⟩) =
      .ok (some (.transform_result "r1" (transform_signal ⟨some [], []⟩))) :=
  transform_result_echoes_request_id ⟨some "transform", some "r1", none, some ⟨some [], []⟩⟩
    ⟨some [], []⟩ "r1" rfl rfl rfl

/-- Counterexample to C5: on a frame that is not valid JSON, `json.loads`
raises and the exception escapes `on_message` — the handler has no exception
handling, so the decode error is not contained within the handler. -/
theorem malformed_frame_counterexample :
    on_message Frame.notJson = .error .badJson := rfl

/-- Claim C5 as amended: a malformed inbound frame — text that is not valid
JSON, a non-object message, a message missing `type`, or a `transform`
message missing `signal` or `request_id` — makes the handler fail: the
decode error escapes `on_message` (which installs no local handling) and no
outbound message is produced for that frame; dropping the frame or closing
the connection is left to the transport library. -/
theorem malformed_frame_errors :
    on_message Frame.notJson = .error .badJson ∧
    on_message Frame.nonObject = .error .notDict ∧
    (∀ m : MsgFields, m.mtype = none → on_message (.object m) = .error (.keyError "type")) ∧
    (∀ m : MsgFields, m.mtype = some "transform" → m.signal = none →
      on_message (.object m) = .error (.keyError "signal")) ∧
    (∀ (m : MsgFields) (sig : Signal), m.mtype = some "transform" → m.signal = some sig →
      m.request_id = none → on_message (.object m) = .error (.keyError "request_id")) := by
  refine ⟨rfl, rfl, ?_, ?_, ?_⟩
  · intro m hm
    rcases m with ⟨t, r, a, g⟩
    simp only at hm
    subst hm
    simp [on_message]
  · intro m hm hs
    rcases m with ⟨t, r, a, g⟩
    simp only at hm hs
    subst hm
    subst hs
    simp [on_message]
  · intro m sig hm hs hr
    rcases m with ⟨t, r, a, g⟩
    simp only at hm hs hr
    subst hm
    subst hs
    subst hr
    simp [on_message]

/-- Witness for the amended C5: a `transform` message with no `request_id`
fails with a `KeyError` on `request_id`. -/
theorem malformed_frame_errors_witness :
    on_message (.object ⟨some "transform", none, none, some ⟨some [], []⟩⟩) =
      .error (.keyError "request_id") :=
  malformed_frame_errors.2.2.2.2 ⟨some "transform", none, none, some ⟨some [], []⟩⟩
    ⟨some [], []⟩ rfl rfl rfl

/-- Counterexample to C7: an inbound message of type `registered` that
carries no `agent_id` field crashes the handler — the acknowledgment log
line reads `msg["agent_id"]`, which raises `KeyError`. -/
theorem registered_without_agent_id_crashes :
    on_message (.object ⟨some "registered", none, none, none⟩) =
      .error (.keyError "agent_id") := rfl

/-- Claim C7 as amended: an inbound message whose type is `registered`,
`pong`, or any discriminator other than `transform` produces no outbound
message and does not fail — provided a `registered` message carries its
`agent_id` field, which the handler reads for logging and whose absence
raises `KeyError`. -/
theorem non_transform_no_output :
    ∀ (m : MsgFields) (t : String), m.mtype = some t → t ≠ "transform" →
      (t = "registered" → m.agent_id.isSome) →
      on_message (.object m) = .ok none := by
  intro m t hm hnt hreg
  rcases m with ⟨t0, r, a, g⟩
  simp only at hm hreg
  subst hm
  by_cases hr : t = "registered"
  · subst hr
    obtain ⟨aid, ha⟩ := Option.isSome_iff_exists.mp (hreg rfl)
    subst ha
    simp [on_message, hnt]
  · by_cases hp : t = "pong"
    · subst hp
      simp [on_message]
    · simp [on_message, hnt, hr, hp]

/-- Witness for the amended C7: a `pong` message produces no outbound
message and no error. -/
theorem non_transform_no_output_witness :
    on_message (.object ⟨some "pong", none, none, none⟩) = .ok none :=
  non_transform_no_output ⟨some "pong", none, none, none⟩ "pong" rfl (by decide) (by decide)

/-- Claim C8: on connection open the client emits exactly one `register`
message declaring agent id `storm_amplifier` and the capability set
`transform`; every other outbound message comes from the handler, which only
ever sends `transform_result` messages (so the register message is the only
outbound message not triggered by an inbound one). -/
theorem on_open_registers_once :
    on_open_messages = [OutMsg.register "storm_amplifier" ["transform"]] ∧
    ∀ (f : Frame) (out : OutMsg), on_message f = .ok (some out) →
      ∃ rid sig, out = .transform_result rid sig := by
  refine ⟨rfl, ?_⟩
  intro f out h
  match f with
  | .notJson => simp [on_message] at h
  | .nonObject => simp [on_message] at h
  | .object ⟨t0, r, a, g⟩ =>
    match t0 with
    | none => simp [on_message] at h
    | some t =>
      by_cases ht : t = "transform"
      · subst ht
        match g with
        | none => simp [on_message] at h
        | some sig =>
          match r with
          | none => simp [on_message] at h
          | some rid =>
            simp [on_message] at h
            exact ⟨rid, transform_signal sig, h.symm⟩
      · by_cases hr : t = "registered"
        · subst hr
          match a with
          | none => simp [on_message] at h
          | some aid => simp [on_message] at h
        · by_cases hp : t = "pong"
          · subst hp
            simp [on_message] at h
          · simp [on_message, ht, hr, hp] at h

/-- Witness for C8: the concrete `transform` frame of Scenario 3 yields an
outbound message, and it is a `transform_result`. -/
theorem on_open_registers_once_witness :
    on_open_messages = [OutMsg.register "storm_amplifier" ["transform"]] ∧
    ∃ rid sig, (OutMsg.transform_result "r1" (transform_signal ⟨some [], []⟩))
      = .transform_result rid sig :=
  ⟨on_open_registers_once.1,
    on_open_registers_once.2
      (.object ⟨some "transform", some "r1", none, some ⟨some [], []⟩⟩)
      (.transform_result "r1" (transform_signal ⟨some [], []⟩)) rfl⟩

/-- Claim C10: `transform_signal` keeps every top-level field of the signal
other than `values` unchanged, and the signal embedded in any outbound
message of the handler is the transformed signal of the inbound `transform`
request itself. -/
theorem transform_result_embeds_updated_signal :
    (∀ s : Signal, (transform_signal s).extra = s.extra) ∧
    ∀ (m : MsgFields) (out : OutMsg), on_message (.object m) = .ok (some out) →
      ∃ sig rid, m.signal = some sig ∧ m.request_id = some rid ∧
        out = .transform_result rid (transform_signal sig) := by
  refine ⟨fun s => rfl, ?_⟩
  intro m out h
  rcases m with ⟨t0, r, a, g⟩
  match t0 with
  | none => simp [on_message] at h
  | some t =>
    by_cases ht : t = "transform"
    · subst ht
      match g with
      | none => simp [on_message] at h
      | some sig =>
        match r with
        | none => simp [on_message] at h
        | some rid =>
          simp [on_message] at h
          exact ⟨sig, rid, rfl, rfl, h.symm⟩
    · by_cases hr : t = "registered"
      · subst hr
        match a with
        | none => simp [on_message] at h
        | some aid => simp [on_message] at h
      · by_cases hp : t = "pong"
        · subst hp
          simp [on_message] at h
        · simp [on_message, ht, hr, hp] at h

/-- Witness for C10: on the concrete `transform` frame of Scenario 3 the
outbound message embeds exactly the transformed request signal. -/
theorem transform_result_embeds_updated_signal_witness :
    (transform_signal ⟨some [], [("origin", Json.jstr "hub")]⟩).extra
      = [("origin", Json.jstr "hub")] ∧
    ∃ sig rid, (some (⟨some [], []⟩ : Signal) = some sig ∧ some "r1" = some rid ∧
      (OutMsg.transform_result "r1" (transform_signal ⟨some [], []⟩))
        = .transform_result rid (transform_signal sig)) :=
  ⟨transform_result_embeds_updated_signal.1 ⟨some [], [("origin", Json.jstr "hub")]⟩,
    transform_result_embeds_updated_signal.2
      ⟨some "transform", some "r1", none, some ⟨some [], []⟩⟩
      (.transform_result "r1" (transform_signal ⟨some [], []⟩)) rfl⟩

end AgentCom
